import Mathlib

/-!
Verification of the CloudSentinel agent dataplane.

This file gives a shallow embedding, in Lean, of the parts of the agent's
Go source that the checked properties are about: the WebSocket transport
client (`internal/websocket`), the session protocol handlers
(`internal/reporter`), the self-update verification (`internal/reporter`,
`update.go`), the metric rate samplers and partition filtering
(`internal/collector`), and the worker supervisor backoff
(`internal/process`).  Pure functions of the source become Lean functions;
stateful methods become explicit state-passing functions on record types.
Machine integers (Go `uint64`) are modelled as `Nat` with explicit
reduction modulo `2 ^ 64`; `float64` quantities used for elapsed time and
rates are modelled as `ℚ`; Go's multi-value `(result, error)` returns
become `Option`-carrying results.  External effects (dialling, the crypto
primitives, the OS probes) enter as explicit inputs.
-/

namespace CloudSentinel

/-- Process-wide configuration, `config.Config` (package `config`).
String fields default to the Go zero value `""`, integer cadences to `0`.
The fields `excludedMountPoints` / `excludedFilesystems` are referenced by
the collector (`c.Config.ExcludedMountPoints`, iterated as strings) but
their declaration is not among the provided files; their type
`List String` is forced by that usage and by the spec's
`excluded_mount_points` / `excluded_filesystems` string lists. -/
structure Config where
  server : String := ""
  key : String := ""
  logPath : String := ""
  metricsInterval : Int := 0
  detailInterval : Int := 0
  systemInterval : Int := 0
  heartbeatInterval : Int := 0
  timezone : String := ""
  agentPrivateKey : String := ""
  agentPublicKey : String := ""
  panelPublicKey : String := ""
  panelFingerprint : String := ""
  sessionKey : String := ""
  encryptionEnabled : Bool := false
  logRetentionDays : Int := 0
  excludedMountPoints : List String := []
  excludedFilesystems : List String := []
  deriving Repr, DecidableEq

/-! ## WsTransport: `websocket.Client` (the client embedded in the source)

State of one transport client.  `hasConn` models `Conn != nil`,
`stopped` models a closed `stopChan`.  The AES session key is an opaque
byte string, modelled as `List Nat`. -/

/-- Transport client state, `websocket.Client`. -/
structure Client where
  isConnected : Bool
  hasConn : Bool
  stopped : Bool
  maxReconnect : Nat
  sessionKey : Option (List Nat)
  encryptionEnabled : Bool
  deriving Repr, DecidableEq

/-- Fresh client, `websocket.NewClient`: disconnected, five reconnect
attempts, no session key, encryption off. -/
def newClient : Client :=
  { isConnected := false
    hasConn := false
    stopped := false
    maxReconnect := 5
    sessionKey := none
    encryptionEnabled := false }

/-- One dial, `Client.Connect`: on success the connection is installed and
`IsConnected` is set; on failure the state is unchanged.  The dial outcome
is an explicit input. -/
def Client.connect (c : Client) (dialOk : Bool) : Client × Bool :=
  if dialOk then ({ c with hasConn := true, isConnected := true }, true)
  else (c, false)

/-- Retry loop, `Client.ConnectWithRetry`: dial until success, until the
stop channel is closed, or until `attempts >= MaxReconnect` (when
`MaxReconnect > 0`).  The list holds the outcome of each successive dial;
an exhausted list models giving up without an answer and is returned as
failure. -/
def Client.connectWithRetry (c : Client) : Nat → List Bool → Client × Bool
  | _, [] => (c, false)
  | attempts, d :: rest =>
    if c.stopped then (c, false)
    else
      let r := c.connect d
      if r.2 then (r.1, true)
      else if c.maxReconnect > 0 && attempts + 1 ≥ c.maxReconnect then (r.1, false)
      else r.1.connectWithRetry (attempts + 1) rest

/-- Reconnect, `Client.Reconnect`: close the current connection, mark
disconnected, then rerun the retry loop.  Note the body touches only
`Conn` and `IsConnected`. -/
def Client.reconnect (c : Client) (dials : List Bool) : Client × Bool :=
  let c1 := { c with isConnected := false }
  c1.connectWithRetry 0 dials

/-- Session-key installation, `Client.EnableEncryption`. -/
def Client.enableEncryption (c : Client) (key : List Nat) : Client :=
  { c with sessionKey := some key, encryptionEnabled := true }

/-- Encryption query, `Client.IsEncryptionEnabled`. -/
def Client.isEncryptionEnabled (c : Client) : Bool :=
  c.encryptionEnabled

/-- Kind of WebSocket frame an outbound message is written as. -/
inductive FrameKind where
  | text
  | binary
  deriving Repr, DecidableEq

/-- Send-path errors of `Client.SendMessage` and its two branches. -/
inductive SendError where
  | notConnected
  | noSessionKey
  deriving Repr, DecidableEq

/-- Outbound send, `Client.SendMessage`: when encryption is enabled the
body is sealed and written as a binary frame (`WriteEncryptedJSON`),
otherwise as a plaintext text frame (`writePlainJSON`).  Serialization and
I/O failures are not modelled; the returned `FrameKind` records which wire
form the message takes. -/
def Client.sendMessage (c : Client) : Except SendError FrameKind :=
  if c.isEncryptionEnabled then
    if !c.isConnected || !c.hasConn then .error .notConnected
    else
      match c.sessionKey with
      | none => .error .noSessionKey
      | some _ => .ok .binary
  else
    if !c.isConnected || !c.hasConn then .error .notConnected
    else .ok .text

/-! ## SessionProtocol: `reporter.sendAuthMessage` -/

/-- The auth message body assembled by `sendAuthMessage`: the `data` map
always carries the shared key; `agent_public_key` is added only when a
public key is available. -/
structure AuthMsg where
  key : String
  agentPublicKey : Option String
  deriving Repr, DecidableEq

/-- Observable outcome of one `sendAuthMessage` call: the message handed
to `SendMessage` (if any), whether the key-length warning was logged, and
the configuration after any keypair generation. -/
structure AuthResult where
  sent : Option AuthMsg
  warnedKeyLength : Bool
  cfg : Config
  deriving Repr, DecidableEq

/-- Auth emission, `reporter.sendAuthMessage`.  `keygen` is the outcome of
`crypto.GenerateKeyPair` (private PEM, public PEM), `none` on failure; it
is consulted only when no public key is stored.  An empty `cfg.Key` aborts
before anything is sent.  The length check `len(cfg.Key) != 36` only logs
a warning (Go `len` is the byte length; the keys involved are ASCII). -/
def sendAuthMessage (keygen : Option (String × String)) (cfg : Config) : AuthResult :=
  if cfg.key = "" then
    { sent := none, warnedKeyLength := false, cfg := cfg }
  else
    let (cfg1, agentPublicKey) :=
      if cfg.agentPublicKey ≠ "" then (cfg, cfg.agentPublicKey)
      else
        match keygen with
        | none => (cfg, "")
        | some (priv, pub) =>
          ({ cfg with agentPrivateKey := priv, agentPublicKey := pub }, pub)
    let msg : AuthMsg :=
      { key := cfg1.key
        agentPublicKey := if agentPublicKey ≠ "" then some agentPublicKey else none }
    { sent := some msg
      warnedKeyLength := cfg1.key.length ≠ 36
      cfg := cfg1 }

/-! ## SessionProtocol: `reporter.handleKeyExchange` -/

/-- The `data` object of an inbound `key_exchange` message once parsed.
`none` fields model absent or non-string JSON values. -/
structure KXData where
  panelPublicKey : Option String
  panelFingerprint : Option String
  deriving Repr, DecidableEq

/-- Errors `handleKeyExchange` can return, one per `fmt.Errorf` site. -/
inductive KXError where
  | badDataShape
  | missingPanelKey
  | missingFingerprint
  | pinnedFingerprintMismatch
  | fingerprintComputeFailed
  | computedFingerprintMismatch
  deriving Repr, DecidableEq

/-- The two errors that report a fingerprint mismatch (pinned-vs-advertised
and computed-vs-advertised). -/
def KXError.isFingerprintMismatch : KXError → Bool
  | .pinnedFingerprintMismatch => true
  | .computedFingerprintMismatch => true
  | _ => false

/-- Result of one `handleKeyExchange` call: the in-memory config after the
call (the Go function mutates it through a pointer, also on error paths),
the client (never touched by the body), the returned error if any, and
whether `SaveConfig` was reached. -/
structure KXResult where
  cfg : Config
  client : Client
  error : Option KXError
  persisted : Bool
  deriving Repr, DecidableEq

/-- Key-exchange handler, `reporter.handleKeyExchange`.  `fp` is
`crypto.GetPublicKeyFingerprint` (PEM in, lowercase hex SHA-256 out,
`none` on parse failure), passed in as the crypto primitive.  The body
first validates the data shape, then checks the advertised fingerprint
against the pin (pinning it when `Config.PanelFingerprint` is empty),
then computes the received key's fingerprint and requires it to equal the
advertised one, and only then installs the panel key and persists. -/
def handleKeyExchange (fp : String → Option String) (data : Option KXData)
    (cfg : Config) (client : Client) : KXResult :=
  match data with
  | none => { cfg := cfg, client := client, error := some .badDataShape, persisted := false }
  | some d =>
    match d.panelPublicKey with
    | none => { cfg := cfg, client := client, error := some .missingPanelKey, persisted := false }
    | some ppk =>
      if ppk = "" then
        { cfg := cfg, client := client, error := some .missingPanelKey, persisted := false }
      else
        match d.panelFingerprint with
        | none =>
          { cfg := cfg, client := client, error := some .missingFingerprint, persisted := false }
        | some pfp =>
          if pfp = "" then
            { cfg := cfg, client := client, error := some .missingFingerprint, persisted := false }
          else
            if cfg.panelFingerprint ≠ "" ∧ cfg.panelFingerprint ≠ pfp then
              { cfg := cfg, client := client
                error := some .pinnedFingerprintMismatch, persisted := false }
            else
              -- first sight: the advertised fingerprint is pinned in memory now
              let cfg1 :=
                if cfg.panelFingerprint = "" then { cfg with panelFingerprint := pfp } else cfg
              match fp ppk with
              | none =>
                { cfg := cfg1, client := client
                  error := some .fingerprintComputeFailed, persisted := false }
              | some received =>
                if received ≠ pfp then
                  { cfg := cfg1, client := client
                    error := some .computedFingerprintMismatch, persisted := false }
                else
                  { cfg := { cfg1 with panelPublicKey := ppk }, client := client
                    error := none, persisted := true }

/-! ## SessionProtocol: the `update_config` command -/

/-- The whitelisted fields an `update_config` command may carry.  JSON
numbers arrive as Go `float64`; they are modelled as `ℚ`.  A `none` field
models an absent key or a failed type assertion. -/
structure UpdateData where
  timezone : Option String := none
  metricsInterval : Option ℚ := none
  detailInterval : Option ℚ := none
  systemInterval : Option ℚ := none
  heartbeatInterval : Option ℚ := none
  logPath : Option String := none
  deriving Repr, DecidableEq

/-- The `if timezone, ok := ...` statement of the `update_config`
branch: a present, non-empty timezone is copied and `configUpdated`
set. -/
def updateTimezoneStep (u : UpdateData) (s : Config × Bool) : Config × Bool :=
  match u.timezone with
  | some tz => if tz ≠ "" then ({ s.1 with timezone := tz }, true) else s
  | none => s

/-- The `if metricsInterval, ok := ...` statement: applied only when
present and `> 0` (`int(v)` truncates, which for the positive values
accepted equals `⌊v⌋`). -/
def updateMetricsIntervalStep (u : UpdateData) (s : Config × Bool) : Config × Bool :=
  match u.metricsInterval with
  | some v => if v > 0 then ({ s.1 with metricsInterval := ⌊v⌋ }, true) else s
  | none => s

/-- The `if detailInterval, ok := ...` statement. -/
def updateDetailIntervalStep (u : UpdateData) (s : Config × Bool) : Config × Bool :=
  match u.detailInterval with
  | some v => if v > 0 then ({ s.1 with detailInterval := ⌊v⌋ }, true) else s
  | none => s

/-- The `if systemInterval, ok := ...` statement. -/
def updateSystemIntervalStep (u : UpdateData) (s : Config × Bool) : Config × Bool :=
  match u.systemInterval with
  | some v => if v > 0 then ({ s.1 with systemInterval := ⌊v⌋ }, true) else s
  | none => s

/-- The `if heartbeatInterval, ok := ...` statement. -/
def updateHeartbeatIntervalStep (u : UpdateData) (s : Config × Bool) : Config × Bool :=
  match u.heartbeatInterval with
  | some v => if v > 0 then ({ s.1 with heartbeatInterval := ⌊v⌋ }, true) else s
  | none => s

/-- The `if logPath, ok := ...` statement. -/
def updateLogPathStep (u : UpdateData) (s : Config × Bool) : Config × Bool :=
  match u.logPath with
  | some lp => if lp ≠ "" then ({ s.1 with logPath := lp }, true) else s
  | none => s

/-- The merge step of the `update_config` branch of `StartReporter`: the
six whitelisted-field statements run in source order over the config and
the `configUpdated` flag. -/
def applyUpdateConfig (u : UpdateData) (cfg : Config) : Config × Bool :=
  updateLogPathStep u
    (updateHeartbeatIntervalStep u
      (updateSystemIntervalStep u
        (updateDetailIntervalStep u
          (updateMetricsIntervalStep u
            (updateTimezoneStep u (cfg, false))))))

/-! ## Updater: checksum verification (`reporter.UpdateService`) -/

/-- Go `strings.TrimSpace`: drop whitespace from both ends. -/
def goTrimSpace (s : String) : String :=
  ⟨((s.data.dropWhile Char.isWhitespace).reverse.dropWhile Char.isWhitespace).reverse⟩

/-- ASCII-adequate model of Go `strings.EqualFold` (the strings compared
are hex digests and file names): equality after lowercasing. -/
def equalFold (a b : String) : Bool :=
  a.data.map Char.toLower == b.data.map Char.toLower

/-- Checksum-file parsing, `UpdateService.readSHA256File`: the whole file
content, whitespace-trimmed — not split at inner whitespace. -/
def readSHA256File (content : String) : String :=
  goTrimSpace content

/-- The verification comparison of `UpdateService.UpdateAgent` (line
`strings.EqualFold(expectedSHA256, actualSHA256)`): `true` lets the
update proceed to extraction and installation, `false` aborts it before
the current executable is backed up or overwritten. -/
def updateChecksumOk (shaFileContent actualSHA256 : String) : Bool :=
  equalFold (readSHA256File shaFileContent) actualSHA256

/-- Modelled from the spec: the first whitespace-separated token of the
checksum file, which the spec prescribes as the comparison operand.  Kept
separate from `readSHA256File` so the two can be compared; the
repository's own `install.sh` (`read_sha256_file`, first field of the
first line) extracts exactly this token from the same release asset. -/
def firstToken (content : String) : String :=
  ⟨(goTrimSpace content).data.takeWhile fun c => !c.isWhitespace⟩

/-- Modelled from the spec: checksum acceptance as the spec states it. -/
def specChecksumOk (shaFileContent actualSHA256 : String) : Bool :=
  equalFold (firstToken shaFileContent) actualSHA256

/-! ## MetricsEngine: rate samplers (`collector.Collector`)

Counters are Go `uint64`; per-interface values are summed with wrapping
addition and differenced with wrapping subtraction.  Elapsed time
(`time.Since(..).Seconds()`, a `float64`) is modelled as `ℚ`. -/

/-- Wrapping `uint64` addition. -/
def u64add (a b : Nat) : Nat :=
  (a + b) % 2 ^ 64

/-- Wrapping `uint64` subtraction (`a - b` in Go on `uint64`). -/
def u64sub (a b : Nat) : Nat :=
  (a % 2 ^ 64 + (2 ^ 64 - b % 2 ^ 64)) % 2 ^ 64

/-- Sum of per-interface (or per-device) counter pairs, as the loops over
`currentCounters` / `lastNetIOCounters` compute it in `uint64`. -/
def sumCounters (l : List (Nat × Nat)) : Nat × Nat :=
  l.foldl (fun acc c => (u64add acc.1 c.1, u64add acc.2 c.2)) (0, 0)

/-- Sampler state: `lastNetIOCounters`/`lastNetIOTime` (respectively
`lastDiskIOCounters`/`lastDiskIOTime`).  `none` models the fresh state in
which the map is `nil` and the time is zero (both are always written
together). -/
structure RateState where
  last : Option (List (Nat × Nat) × ℚ)
  deriving Repr, DecidableEq

/-- Fresh sampler state of a newly built `Collector`. -/
def freshRateState : RateState :=
  { last := none }

/-- Network rate sampler, `Collector.getNetworkSpeed`.  `current` is the
probe result (`GetNetIOCounters`), `none` on probe error; `now` the
current instant in seconds.  Returns `((upload, download), new state)`.
On probe error it returns zeros without touching the state; on first call
it seeds the state and returns zeros; afterwards it divides the wrapped
counter deltas by the elapsed time, substituting `1` second only when the
elapsed time is `≤ 0`. -/
def getNetworkSpeed (st : RateState) (current : Option (List (Nat × Nat)))
    (now : ℚ) : (ℚ × ℚ) × RateState :=
  match current with
  | none => ((0, 0), st)
  | some cur =>
    match st.last with
    | none => ((0, 0), { last := some (cur, now) })
    | some (lastCounters, lastTime) =>
      let c := sumCounters cur
      let l := sumCounters lastCounters
      let timeDiff := now - lastTime
      let d := if timeDiff ≤ 0 then 1 else timeDiff
      let uploadSpeed : ℚ := (u64sub c.1 l.1 : ℚ) / d
      let downloadSpeed : ℚ := (u64sub c.2 l.2 : ℚ) / d
      ((uploadSpeed, downloadSpeed), { last := some (cur, now) })

/-- Disk I/O rate sampler, `Collector.getDiskIOSpeed`: same shape as
`getNetworkSpeed` over `(ReadBytes, WriteBytes)` per device. -/
def getDiskIOSpeed (st : RateState) (current : Option (List (Nat × Nat)))
    (now : ℚ) : (ℚ × ℚ) × RateState :=
  match current with
  | none => ((0, 0), st)
  | some cur =>
    match st.last with
    | none => ((0, 0), { last := some (cur, now) })
    | some (lastCounters, lastTime) =>
      let c := sumCounters cur
      let l := sumCounters lastCounters
      let timeDiff := now - lastTime
      let d := if timeDiff ≤ 0 then 1 else timeDiff
      let readSpeed : ℚ := (u64sub c.1 l.1 : ℚ) / d
      let writeSpeed : ℚ := (u64sub c.2 l.2 : ℚ) / d
      ((readSpeed, writeSpeed), { last := some (cur, now) })

/-! ## MetricsEngine: partition filtering (`Collector.SendDiskInfo`) -/

/-- Usage data for one mount point (`disk.UsageStat` as the collector
reads it). -/
structure DiskUsage where
  total : Nat
  used : Nat
  free : Nat
  usedPercent : ℚ
  deriving Repr, DecidableEq

/-- One partition as the filtering loop sees it: the `disk.PartitionStat`
fields it reads plus the `GetDiskUsage(mountpoint)` answer (`none` models
the probe returning `nil`). -/
structure Partition where
  device : String
  mountpoint : String
  fstype : String
  usage : Option DiskUsage
  deriving Repr, DecidableEq

/-- Mount-point exclusion, `Collector.isVirtualFilesystem`: the mount
point equals an excluded entry, or extends it across a `/` boundary
(`mountPoint[:len(prefix)+1] == prefix+"/"`, guarded by
`len(mountPoint) > len(prefix)`, which is exactly a string-prefix test
against the entry followed by `/`). -/
def isVirtualFilesystem (cfg : Config) (mountPoint : String) : Bool :=
  cfg.excludedMountPoints.any fun p =>
    mountPoint == p || (p ++ "/").data.isPrefixOf mountPoint.data

/-- Filesystem-type exclusion, `Collector.isExcludedFilesystem`. -/
def isExcludedFilesystem (cfg : Config) (fstype : String) : Bool :=
  cfg.excludedFilesystems.any fun t => fstype == t

/-- Whether one partition passes every per-partition check of the
`SendDiskInfo` loop (everything except the device dedup). -/
def partitionKept (cfg : Config) (p : Partition) : Bool :=
  !isVirtualFilesystem cfg p.mountpoint &&
  !isExcludedFilesystem cfg p.fstype &&
  match p.usage with
  | none => false
  | some u => u.total != 0

/-- The filtering loop of `Collector.SendDiskInfo`, carrying the
`seenDevices` set: skip excluded mount points, excluded filesystem types,
devices already seen, missing usage, and `total == 0`; otherwise keep the
partition and record its device. -/
def filterPartitionsAux (cfg : Config) : List String → List Partition → List Partition
  | _, [] => []
  | seen, p :: ps =>
    if isVirtualFilesystem cfg p.mountpoint then filterPartitionsAux cfg seen ps
    else if isExcludedFilesystem cfg p.fstype then filterPartitionsAux cfg seen ps
    else if seen.contains p.device then filterPartitionsAux cfg seen ps
    else
      match p.usage with
      | none => filterPartitionsAux cfg seen ps
      | some u =>
        if u.total == 0 then filterPartitionsAux cfg seen ps
        else p :: filterPartitionsAux cfg (p.device :: seen) ps

/-- Partition filtering with an initially empty `seenDevices`. -/
def filterPartitions (cfg : Config) (ps : List Partition) : List Partition :=
  filterPartitionsAux cfg [] ps

/-! ## Supervisor: worker restart backoff (`process.ProcessManager`) -/

/-- One second as a Go `time.Duration` (nanoseconds). -/
def oneSecond : Nat := 1000000000

/-- Saturation bound `maxRestartDelay` set by `NewProcessManager`:
64 seconds. -/
def maxRestartDelay : Nat := 64 * oneSecond

/-- Initial `heartbeatRestartDelay` / `reporterRestartDelay` set by
`NewProcessManager`. -/
def initialRestartDelay : Nat := oneSecond

/-- Backoff step, `ProcessManager.exponentialBackoff`: double the delay,
clamping to `maxRestartDelay`. -/
def exponentialBackoff (delay : Nat) : Nat :=
  let d := delay * 2
  if d > maxRestartDelay then maxRestartDelay else d

/-- Delay in force after `n` consecutive failures from a fresh manager:
the worker loops sleep the current delay and then apply
`exponentialBackoff` after each failure. -/
def backoffAfter (n : Nat) : Nat :=
  Nat.rec initialRestartDelay (fun _ d => exponentialBackoff d) n

/-- The health-beat branch of `ProcessManager.MonitorProcesses`: a
successful beat resets the restart delay to one second (and refreshes the
liveness timestamp); a failed beat leaves the delay alone. -/
def monitorHealthStep (healthy : Bool) (delay : Nat) : Nat :=
  if healthy then oneSecond else delay

/-! # Theorems -/

/-! ## C1: encryption state across `Reconnect` -/

/-- One dial step never changes the session-encryption fields. -/
theorem Client.connect_encState (c : Client) (d : Bool) :
    (c.connect d).1.encryptionEnabled = c.encryptionEnabled ∧
      (c.connect d).1.sessionKey = c.sessionKey := by
  cases d <;> simp [Client.connect]

/-- The retry loop never changes the session-encryption fields. -/
theorem Client.connectWithRetry_encState (dials : List Bool) :
    ∀ (c : Client) (attempts : Nat),
      ((c.connectWithRetry attempts dials).1.encryptionEnabled = c.encryptionEnabled) ∧
        ((c.connectWithRetry attempts dials).1.sessionKey = c.sessionKey) := by
  induction dials with
  | nil => intro c attempts; simp [Client.connectWithRetry]
  | cons d rest ih =>
    intro c attempts
    by_cases hs : c.stopped
    · simp [Client.connectWithRetry, hs]
    · cases d with
      | true => simp [Client.connectWithRetry, Client.connect, hs]
      | false =>
        by_cases hm : c.maxReconnect > 0 && attempts + 1 ≥ c.maxReconnect
        · simp [Client.connectWithRetry, Client.connect, hs, hm]
        · simpa [Client.connectWithRetry, Client.connect, hs, hm] using
            ih c (attempts + 1)

/-- C1, amended: `Client.Reconnect` does not clear the session-encryption
state.  For every client and every sequence of dial outcomes, the client
returned by `reconnect` has the same `EncryptionEnabled` flag and the
same `SessionKey` as before; a client whose encryption was enabled keeps
treating frames as encrypted after a successful reconnect, until a new
`session_key` message overwrites the key. -/
theorem reconnect_preserves_encryption_state (c : Client) (dials : List Bool) :
    ((c.reconnect dials).1.encryptionEnabled = c.encryptionEnabled) ∧
      ((c.reconnect dials).1.sessionKey = c.sessionKey) := by
  have h := Client.connectWithRetry_encState dials { c with isConnected := false } 0
  simpa [Client.reconnect] using h

/-- A connected, encryption-enabled client as produced by a completed key
exchange and session-key installation. -/
def encryptedDemoClient : Client :=
  { isConnected := true
    hasConn := true
    stopped := false
    maxReconnect := 5
    sessionKey := some [1, 2, 3]
    encryptionEnabled := true }

/-- C1, counterexample: take an encryption-enabled client and a first dial
that succeeds.  `reconnect` returns success, yet `IsEncryptionEnabled` is
still `true` and the next `SendMessage` still takes the encrypted binary
path — the claim that a successful `Reconnect()` leaves the client
treating no frame as encrypted is false at this input. -/
theorem reconnect_keeps_encryption_counterexample :
    (encryptedDemoClient.reconnect [true]).2 = true ∧
      (encryptedDemoClient.reconnect [true]).1.isEncryptionEnabled = true ∧
      (encryptedDemoClient.reconnect [true]).1.sendMessage = Except.ok FrameKind.binary :=
  ⟨rfl, rfl, rfl⟩

/-! ## C2, C9: `handleKeyExchange` -/

/-- C2: for an inbound `key_exchange` message with a non-empty panel key
and advertised fingerprint, the handler succeeds exactly when the
computed fingerprint of the received key equals the advertised one and
the advertised one either matches the pinned `Config.PanelFingerprint` or
no fingerprint was pinned (TOFU, in which case the advertised fingerprint
is pinned).  On a pinned-fingerprint mismatch or a computed-fingerprint
mismatch the handler returns the corresponding fingerprint-mismatch
error; on every error path `Config.PanelPublicKey` is not installed; and
the client — in particular its encryption state — is never touched by the
handler, so the session is not promoted to encrypted. -/
theorem handleKeyExchange_fingerprint_check (fp : String → Option String)
    (cfg : Config) (client : Client) (ppk pfp : String) (r : KXResult)
    (hp : ppk ≠ "") (hf : pfp ≠ "")
    (hr : handleKeyExchange fp (some ⟨some ppk, some pfp⟩) cfg client = r) :
    (r.error = none ↔
        fp ppk = some pfp ∧ (cfg.panelFingerprint = "" ∨ cfg.panelFingerprint = pfp)) ∧
      (r.error = none → r.cfg.panelPublicKey = ppk ∧ r.cfg.panelFingerprint = pfp) ∧
      (cfg.panelFingerprint ≠ "" → cfg.panelFingerprint ≠ pfp →
        r.error = some KXError.pinnedFingerprintMismatch) ∧
      (∀ rf, fp ppk = some rf → rf ≠ pfp →
        (cfg.panelFingerprint = "" ∨ cfg.panelFingerprint = pfp) →
        r.error = some KXError.computedFingerprintMismatch) ∧
      (∀ e, r.error = some e → e.isFingerprintMismatch = true →
        r.cfg.panelPublicKey = cfg.panelPublicKey) ∧
      (r.error ≠ none → r.cfg.panelPublicKey = cfg.panelPublicKey) ∧
      r.client = client := by
  subst hr
  by_cases h1 : cfg.panelFingerprint = ""
  · cases hfp : fp ppk with
    | none => simp [handleKeyExchange, hp, hf, h1, hfp]
    | some rf =>
      by_cases h2 : rf = pfp
      · subst h2; simp [handleKeyExchange, hp, hf, h1, hfp]
      · simp [handleKeyExchange, hp, hf, h1, hfp, h2, Ne.symm h2]
  · by_cases h3 : cfg.panelFingerprint = pfp
    · cases hfp : fp ppk with
      | none => simp [handleKeyExchange, hp, hf, h1, h3, hfp]
      | some rf =>
        by_cases h2 : rf = pfp
        · subst h2; simp [handleKeyExchange, hp, hf, h1, h3, hfp]
        · simp [handleKeyExchange, hp, hf, h1, h3, hfp, h2, Ne.symm h2]
    · simp [handleKeyExchange, hp, hf, h1, h3, KXError.isFingerprintMismatch]

/-- A fingerprint oracle for the witnesses: one known key PEM, fingerprint
hex string for it, nothing else parses. -/
def kxDemoFp : String → Option String :=
  fun s => if s = "PEMKEY" then some "ff00" else none

/-- C2, witness: at the concrete input where the received key's computed
fingerprint equals the advertised one and no fingerprint is pinned, the
handler succeeds (TOFU). -/
theorem handleKeyExchange_fingerprint_check_witness :
    (handleKeyExchange kxDemoFp (some ⟨some "PEMKEY", some "ff00"⟩)
        ({} : Config) newClient).error = none :=
  (handleKeyExchange_fingerprint_check kxDemoFp ({} : Config) newClient
      "PEMKEY" "ff00" _ (by decide) (by decide) rfl).1.mpr
    ⟨by decide, Or.inl rfl⟩

/-- C9: when no fingerprint is pinned, the advertised fingerprint is
written into the in-memory config before the received key is checked
against it; if that verification then fails (computation fails or the
computed value differs), the handler errors out, skips persistence, does
not install the panel key — but the in-memory config keeps the unverified
advertised fingerprint. -/
theorem handleKeyExchange_pin_not_rolled_back (fp : String → Option String)
    (cfg : Config) (client : Client) (ppk pfp : String) (r : KXResult)
    (h0 : cfg.panelFingerprint = "") (hp : ppk ≠ "") (hf : pfp ≠ "")
    (hv : fp ppk ≠ some pfp)
    (hr : handleKeyExchange fp (some ⟨some ppk, some pfp⟩) cfg client = r) :
    r.error ≠ none ∧ r.cfg.panelFingerprint = pfp ∧ r.persisted = false ∧
      r.cfg.panelPublicKey = cfg.panelPublicKey := by
  subst hr
  cases hfp : fp ppk with
  | none => simp [handleKeyExchange, hp, hf, h0, hfp]
  | some rf =>
    have h2 : rf ≠ pfp := by intro h; exact hv (h ▸ hfp)
    simp [handleKeyExchange, hp, hf, h0, hfp, h2]

/-- C9, witness: with nothing pinned and a key whose fingerprint cannot be
computed, the handler fails yet the in-memory config now carries the
advertised fingerprint, unpersisted. -/
theorem handleKeyExchange_pin_not_rolled_back_witness :
    (handleKeyExchange (fun _ => none) (some ⟨some "PEMKEY", some "ff00"⟩)
        ({} : Config) newClient).cfg.panelFingerprint = "ff00" :=
  (handleKeyExchange_pin_not_rolled_back (fun _ => none) ({} : Config) newClient
      "PEMKEY" "ff00" _ rfl (by decide) (by decide) (by simp) rfl).2.1

/-! ## C3: rate samplers -/

/-- C3, amended: both rate samplers return `(0, 0)` on the first call and
seed the stored counters; every subsequent call returns
`(current − last) / elapsed` per component where the elapsed time is
replaced by one second only when it is `≤ 0` — a positive sub-second
elapsed time is used as-is, it is not raised to one second.  The divisor
is always positive (no division by zero) and both returned components are
nonnegative (in particular for non-decreasing monotone counters). -/
theorem rateSamplers_spec (cur lastC : List (Nat × Nat)) (lastT now : ℚ) :
    getNetworkSpeed freshRateState (some cur) now = ((0, 0), { last := some (cur, now) }) ∧
      getDiskIOSpeed freshRateState (some cur) now = ((0, 0), { last := some (cur, now) }) ∧
      (0 < now - lastT →
        (getNetworkSpeed { last := some (lastC, lastT) } (some cur) now).1 =
          ((u64sub (sumCounters cur).1 (sumCounters lastC).1 : ℚ) / (now - lastT),
           (u64sub (sumCounters cur).2 (sumCounters lastC).2 : ℚ) / (now - lastT)) ∧
        (getDiskIOSpeed { last := some (lastC, lastT) } (some cur) now).1 =
          ((u64sub (sumCounters cur).1 (sumCounters lastC).1 : ℚ) / (now - lastT),
           (u64sub (sumCounters cur).2 (sumCounters lastC).2 : ℚ) / (now - lastT))) ∧
      (now - lastT ≤ 0 →
        (getNetworkSpeed { last := some (lastC, lastT) } (some cur) now).1 =
          ((u64sub (sumCounters cur).1 (sumCounters lastC).1 : ℚ),
           (u64sub (sumCounters cur).2 (sumCounters lastC).2 : ℚ)) ∧
        (getDiskIOSpeed { last := some (lastC, lastT) } (some cur) now).1 =
          ((u64sub (sumCounters cur).1 (sumCounters lastC).1 : ℚ),
           (u64sub (sumCounters cur).2 (sumCounters lastC).2 : ℚ))) ∧
      (0 < if now - lastT ≤ 0 then (1 : ℚ) else now - lastT) ∧
      0 ≤ ((getNetworkSpeed { last := some (lastC, lastT) } (some cur) now).1).1 ∧
      0 ≤ ((getNetworkSpeed { last := some (lastC, lastT) } (some cur) now).1).2 ∧
      0 ≤ ((getDiskIOSpeed { last := some (lastC, lastT) } (some cur) now).1).1 ∧
      0 ≤ ((getDiskIOSpeed { last := some (lastC, lastT) } (some cur) now).1).2 ∧
      (getNetworkSpeed { last := some (lastC, lastT) } (some cur) now).2 =
        { last := some (cur, now) } ∧
      (getDiskIOSpeed { last := some (lastC, lastT) } (some cur) now).2 =
        { last := some (cur, now) } := by
  have hdpos : (0 : ℚ) < if now - lastT ≤ 0 then (1 : ℚ) else now - lastT := by
    split
    · norm_num
    · linarith [lt_of_not_le (by assumption : ¬ now - lastT ≤ 0)]
  refine ⟨rfl, rfl, ?_, ?_, hdpos, ?_, ?_, ?_, ?_, rfl, rfl⟩
  · intro h
    have hne : ¬ now - lastT ≤ 0 := not_le.mpr h
    constructor <;> simp [getNetworkSpeed, getDiskIOSpeed, hne]
  · intro h
    constructor <;> simp [getNetworkSpeed, getDiskIOSpeed, h]
  all_goals
    simp only [getNetworkSpeed, getDiskIOSpeed]
    exact div_nonneg (by positivity) (le_of_lt hdpos)

/-- C3, counterexample: a sampler seeded at time `0` with zero counters is
read again at `t = 1/2 s` with a counter total of `10` bytes.  The code
returns `10 / (1/2) = 20` bytes/s, while an elapsed time clamped to at
least one second, as claimed, would give `10 / max (1/2) 1 = 10`. -/
theorem network_speed_subsecond_elapsed_counterexample :
    ((getNetworkSpeed { last := some ([(0, 0)], 0) } (some [(10, 0)]) (1 / 2)).1).1 = 20 ∧
      (10 : ℚ) / max (1 / 2 : ℚ) 1 = 10 ∧ (20 : ℚ) ≠ 10 := by
  refine ⟨?_, by norm_num, by norm_num⟩
  norm_num [getNetworkSpeed, sumCounters, u64sub, u64add]

/-- C3, witness: the amended theorem applied to the seeded sampler of the
counterexample: at a positive elapsed time of a half second, the returned
upload speed is the counter delta divided by that very half second. -/
theorem rateSamplers_spec_witness :
    ((getNetworkSpeed { last := some ([(0, 0)], 0) } (some [(10, 0)]) (1 / 2)).1).1 =
      (u64sub (sumCounters [(10, 0)]).1 (sumCounters [(0, 0)]).1 : ℚ) / (1 / 2 - 0) := by
  have h := (rateSamplers_spec [(10, 0)] [(0, 0)] 0 (1 / 2)).2.2.1 (by norm_num)
  rw [h.1]

/-! ## C4: update checksum verification -/

/-- Checksum file content in the format the repository's CI build script
produces (`sha256sum tarball > tarball.sha256`): digest, two spaces, file
name, newline.  The digest here is a stand-in 64-hex-digit value. -/
def ciShaFileContent : String :=
  "9f86d081884c7d659a2feaa0c55ad015a3bf4f1b2b0b822cd15d6c15b0f00a08  agent-linux-amd64.tar.gz\n"

/-- The same digest as the computed tarball hash (hex, lowercase). -/
def ciActualSHA256 : String :=
  "9f86d081884c7d659a2feaa0c55ad015a3bf4f1b2b0b822cd15d6c15b0f00a08"

/-- C4 (code bug): on a checksum file in the repository's own release
format the tarball hash matches the file's first whitespace-separated
token, as the claim prescribes — but the code compares against the whole
trimmed content and rejects, aborting every such update. -/
theorem updateChecksum_rejects_ci_format :
    firstToken ciShaFileContent = ciActualSHA256 ∧
      specChecksumOk ciShaFileContent ciActualSHA256 = true ∧
      updateChecksumOk ciShaFileContent ciActualSHA256 = false ∧
      readSHA256File ciShaFileContent ≠ firstToken ciShaFileContent := by
  refine ⟨?_, ?_, ?_, ?_⟩ <;> decide

/-! ## C5, C10: auth emission -/

/-- C5, amended: for every configuration whose shared key is non-empty
but has a length other than 36, `sendAuthMessage` logs the length warning
and still hands the auth message, carrying that key, to the transport —
the length mismatch is non-fatal.  (An empty key, by contrast, aborts the
emission before any message is built; see the counterexample.) -/
theorem sendAuthMessage_short_key_still_sent (keygen : Option (String × String))
    (cfg : Config) (hk : cfg.key ≠ "") (hl : cfg.key.length ≠ 36) :
    (sendAuthMessage keygen cfg).warnedKeyLength = true ∧
      ∃ m, (sendAuthMessage keygen cfg).sent = some m ∧ m.key = cfg.key := by
  by_cases hpub : cfg.agentPublicKey = "" <;> cases keygen <;>
    simp [sendAuthMessage, hk, hl, hpub]

/-- C5, witness: a five-character key is warned about and still sent. -/
theorem sendAuthMessage_short_key_still_sent_witness :
    (sendAuthMessage none { key := "short" }).warnedKeyLength = true ∧
      ∃ m, (sendAuthMessage none { key := "short" }).sent = some m ∧
        m.key = ({ key := "short" : Config}).key :=
  sendAuthMessage_short_key_still_sent none { key := "short" } (by decide) (by decide)

/-- C5, counterexample: the empty string is a configured key whose length
(0) differs from 36, yet `sendAuthMessage` returns at the empty-key guard:
no warning is logged and no auth message is sent at all. -/
theorem sendAuthMessage_empty_key_counterexample :
    ("".length ≠ 36) ∧
      (sendAuthMessage none { key := "" }).sent = none ∧
      (sendAuthMessage none { key := "" }).warnedKeyLength = false := by
  refine ⟨by decide, ?_, ?_⟩ <;> rfl

/-- C10: when no agent public key is stored and keypair generation fails,
the auth message is still sent — carrying the shared key but no
`agent_public_key` field — and the configuration is left unchanged (no
key material installed): the agent continues in plaintext. -/
theorem sendAuthMessage_keygen_failure_plaintext (cfg : Config)
    (hk : cfg.key ≠ "") (hpub : cfg.agentPublicKey = "") :
    (sendAuthMessage none cfg).sent = some { key := cfg.key, agentPublicKey := none } ∧
      (sendAuthMessage none cfg).cfg = cfg := by
  constructor <;> simp [sendAuthMessage, hk, hpub]

/-- C10, witness: concrete 36-character key, no stored keypair, keygen
failed — the message goes out without a public key. -/
theorem sendAuthMessage_keygen_failure_plaintext_witness :
    (sendAuthMessage none { key := "XXXXXXXX-XXXX-XXXX-XXXX-XXXXXXXXXXXX" }).sent =
      some { key := "XXXXXXXX-XXXX-XXXX-XXXX-XXXXXXXXXXXX", agentPublicKey := none } :=
  (sendAuthMessage_keygen_failure_plaintext
      { key := "XXXXXXXX-XXXX-XXXX-XXXX-XXXXXXXXXXXX" } (by decide) rfl).1

/-! ## C6: `update_config` cadence validation -/

/-- The timezone statement touches no cadence field. -/
theorem updateTimezoneStep_cadences (u : UpdateData) (s : Config × Bool) :
    (updateTimezoneStep u s).1.metricsInterval = s.1.metricsInterval ∧
      (updateTimezoneStep u s).1.detailInterval = s.1.detailInterval ∧
      (updateTimezoneStep u s).1.systemInterval = s.1.systemInterval ∧
      (updateTimezoneStep u s).1.heartbeatInterval = s.1.heartbeatInterval := by
  cases hx : u.timezone with
  | none => simp [updateTimezoneStep, hx]
  | some tz => by_cases h : tz ≠ "" <;> simp [updateTimezoneStep, hx, h]

/-- The log-path statement touches no cadence field. -/
theorem updateLogPathStep_cadences (u : UpdateData) (s : Config × Bool) :
    (updateLogPathStep u s).1.metricsInterval = s.1.metricsInterval ∧
      (updateLogPathStep u s).1.detailInterval = s.1.detailInterval ∧
      (updateLogPathStep u s).1.systemInterval = s.1.systemInterval ∧
      (updateLogPathStep u s).1.heartbeatInterval = s.1.heartbeatInterval := by
  cases hx : u.logPath with
  | none => simp [updateLogPathStep, hx]
  | some lp => by_cases h : lp ≠ "" <;> simp [updateLogPathStep, hx, h]

/-- The metrics-interval statement touches no other cadence field. -/
theorem updateMetricsIntervalStep_others (u : UpdateData) (s : Config × Bool) :
    (updateMetricsIntervalStep u s).1.detailInterval = s.1.detailInterval ∧
      (updateMetricsIntervalStep u s).1.systemInterval = s.1.systemInterval ∧
      (updateMetricsIntervalStep u s).1.heartbeatInterval = s.1.heartbeatInterval := by
  cases hx : u.metricsInterval with
  | none => simp [updateMetricsIntervalStep, hx]
  | some v => by_cases h : v > 0 <;> simp [updateMetricsIntervalStep, hx, h]

/-- The detail-interval statement touches no other cadence field. -/
theorem updateDetailIntervalStep_others (u : UpdateData) (s : Config × Bool) :
    (updateDetailIntervalStep u s).1.metricsInterval = s.1.metricsInterval ∧
      (updateDetailIntervalStep u s).1.systemInterval = s.1.systemInterval ∧
      (updateDetailIntervalStep u s).1.heartbeatInterval = s.1.heartbeatInterval := by
  cases hx : u.detailInterval with
  | none => simp [updateDetailIntervalStep, hx]
  | some v => by_cases h : v > 0 <;> simp [updateDetailIntervalStep, hx, h]

/-- The system-interval statement touches no other cadence field. -/
theorem updateSystemIntervalStep_others (u : UpdateData) (s : Config × Bool) :
    (updateSystemIntervalStep u s).1.metricsInterval = s.1.metricsInterval ∧
      (updateSystemIntervalStep u s).1.detailInterval = s.1.detailInterval ∧
      (updateSystemIntervalStep u s).1.heartbeatInterval = s.1.heartbeatInterval := by
  cases hx : u.systemInterval with
  | none => simp [updateSystemIntervalStep, hx]
  | some v => by_cases h : v > 0 <;> simp [updateSystemIntervalStep, hx, h]

/-- The heartbeat-interval statement touches no other cadence field. -/
theorem updateHeartbeatIntervalStep_others (u : UpdateData) (s : Config × Bool) :
    (updateHeartbeatIntervalStep u s).1.metricsInterval = s.1.metricsInterval ∧
      (updateHeartbeatIntervalStep u s).1.detailInterval = s.1.detailInterval ∧
      (updateHeartbeatIntervalStep u s).1.systemInterval = s.1.systemInterval := by
  cases hx : u.heartbeatInterval with
  | none => simp [updateHeartbeatIntervalStep, hx]
  | some v => by_cases h : v > 0 <;> simp [updateHeartbeatIntervalStep, hx, h]

/-- A nonpositive metrics interval is rejected by its statement. -/
theorem updateMetricsIntervalStep_nonpos (u : UpdateData) (s : Config × Bool)
    (v : ℚ) (hv : u.metricsInterval = some v) (hle : v ≤ 0) :
    (updateMetricsIntervalStep u s).1.metricsInterval = s.1.metricsInterval := by
  simp only [updateMetricsIntervalStep, hv]
  rw [if_neg (not_lt.mpr hle)]

/-- A nonpositive detail interval is rejected by its statement. -/
theorem updateDetailIntervalStep_nonpos (u : UpdateData) (s : Config × Bool)
    (v : ℚ) (hv : u.detailInterval = some v) (hle : v ≤ 0) :
    (updateDetailIntervalStep u s).1.detailInterval = s.1.detailInterval := by
  simp only [updateDetailIntervalStep, hv]
  rw [if_neg (not_lt.mpr hle)]

/-- A nonpositive system interval is rejected by its statement. -/
theorem updateSystemIntervalStep_nonpos (u : UpdateData) (s : Config × Bool)
    (v : ℚ) (hv : u.systemInterval = some v) (hle : v ≤ 0) :
    (updateSystemIntervalStep u s).1.systemInterval = s.1.systemInterval := by
  simp only [updateSystemIntervalStep, hv]
  rw [if_neg (not_lt.mpr hle)]

/-- A nonpositive heartbeat interval is rejected by its statement. -/
theorem updateHeartbeatIntervalStep_nonpos (u : UpdateData) (s : Config × Bool)
    (v : ℚ) (hv : u.heartbeatInterval = some v) (hle : v ≤ 0) :
    (updateHeartbeatIntervalStep u s).1.heartbeatInterval = s.1.heartbeatInterval := by
  simp only [updateHeartbeatIntervalStep, hv]
  rw [if_neg (not_lt.mpr hle)]

/-- C6: an `update_config` command carrying a cadence value that is zero
or negative does not change the corresponding config field — the value is
rejected and the existing one retained, whatever else the command
carries. -/
theorem updateConfig_rejects_nonpositive_cadence (u : UpdateData) (cfg : Config) :
    (∀ v, u.metricsInterval = some v → v ≤ 0 →
      (applyUpdateConfig u cfg).1.metricsInterval = cfg.metricsInterval) ∧
      (∀ v, u.detailInterval = some v → v ≤ 0 →
        (applyUpdateConfig u cfg).1.detailInterval = cfg.detailInterval) ∧
      (∀ v, u.systemInterval = some v → v ≤ 0 →
        (applyUpdateConfig u cfg).1.systemInterval = cfg.systemInterval) ∧
      (∀ v, u.heartbeatInterval = some v → v ≤ 0 →
        (applyUpdateConfig u cfg).1.heartbeatInterval = cfg.heartbeatInterval) := by
  refine ⟨?_, ?_, ?_, ?_⟩ <;> intro v hv hle <;> unfold applyUpdateConfig
  · rw [(updateLogPathStep_cadences u _).1, (updateHeartbeatIntervalStep_others u _).1,
      (updateSystemIntervalStep_others u _).1, (updateDetailIntervalStep_others u _).1,
      updateMetricsIntervalStep_nonpos u _ v hv hle, (updateTimezoneStep_cadences u _).1]
  · rw [(updateLogPathStep_cadences u _).2.1, (updateHeartbeatIntervalStep_others u _).2.1,
      (updateSystemIntervalStep_others u _).2.1,
      updateDetailIntervalStep_nonpos u _ v hv hle,
      (updateMetricsIntervalStep_others u _).1, (updateTimezoneStep_cadences u _).2.1]
  · rw [(updateLogPathStep_cadences u _).2.2.1,
      (updateHeartbeatIntervalStep_others u _).2.2,
      updateSystemIntervalStep_nonpos u _ v hv hle,
      (updateDetailIntervalStep_others u _).2.1,
      (updateMetricsIntervalStep_others u _).2.1, (updateTimezoneStep_cadences u _).2.2.1]
  · rw [(updateLogPathStep_cadences u _).2.2.2,
      updateHeartbeatIntervalStep_nonpos u _ v hv hle,
      (updateSystemIntervalStep_others u _).2.2,
      (updateDetailIntervalStep_others u _).2.2,
      (updateMetricsIntervalStep_others u _).2.2, (updateTimezoneStep_cadences u _).2.2.2]

/-- An `update_config` payload with all four cadences invalid. -/
def nonpositiveCadenceUpdate : UpdateData :=
  { metricsInterval := some 0
    detailInterval := some (-1)
    systemInterval := some (-2)
    heartbeatInterval := some 0 }

/-- The default cadences (5/15/15/10 s) as the running config. -/
def runningCadenceConfig : Config :=
  { metricsInterval := 5, detailInterval := 15, systemInterval := 15, heartbeatInterval := 10 }

/-- C6, witness: zero and negative cadences leave 5/15/15/10 in place. -/
theorem updateConfig_rejects_nonpositive_cadence_witness :
    (applyUpdateConfig nonpositiveCadenceUpdate runningCadenceConfig).1.metricsInterval = 5 ∧
      (applyUpdateConfig nonpositiveCadenceUpdate runningCadenceConfig).1.detailInterval = 15 ∧
      (applyUpdateConfig nonpositiveCadenceUpdate runningCadenceConfig).1.systemInterval = 15 ∧
      (applyUpdateConfig nonpositiveCadenceUpdate runningCadenceConfig).1.heartbeatInterval = 10 := by
  have h := updateConfig_rejects_nonpositive_cadence nonpositiveCadenceUpdate runningCadenceConfig
  exact ⟨h.1 0 rfl (by norm_num), h.2.1 (-1) rfl (by norm_num),
    h.2.2.1 (-2) rfl (by norm_num), h.2.2.2 0 rfl (by norm_num)⟩

/-! ## C7: worker restart backoff -/

/-- The backoff step doubles and clamps. -/
theorem exponentialBackoff_eq_min (d : Nat) :
    exponentialBackoff d = min (2 * d) maxRestartDelay := by
  simp only [exponentialBackoff]
  split <;> omega

/-- Unfolding of the failure-delay sequence. -/
theorem backoffAfter_succ (n : Nat) :
    backoffAfter (n + 1) = exponentialBackoff (backoffAfter n) := rfl

/-- C7: the restart backoff starts at one second, doubles (with clamp)
after each consecutive failure, is monotone non-decreasing, never exceeds
64 seconds, reaches exactly 64 seconds from the sixth consecutive failure
on, and is reset to one second by any successful health beat. -/
theorem workerBackoff_spec :
    initialRestartDelay = oneSecond ∧
      backoffAfter 0 = oneSecond ∧
      (∀ n, backoffAfter (n + 1) = min (2 * backoffAfter n) maxRestartDelay) ∧
      (∀ n, backoffAfter n ≤ backoffAfter (n + 1)) ∧
      (∀ n, backoffAfter n ≤ maxRestartDelay) ∧
      (∀ n, 6 ≤ n → backoffAfter n = maxRestartDelay) ∧
      (∀ d, monitorHealthStep true d = oneSecond) := by
  have hstep : ∀ n, backoffAfter (n + 1) = min (2 * backoffAfter n) maxRestartDelay :=
    fun n => exponentialBackoff_eq_min (backoffAfter n)
  have hbound : ∀ n, backoffAfter n ≤ maxRestartDelay := by
    intro n
    induction n with
    | zero => decide
    | succ k _ => rw [hstep]; omega
  have hmono : ∀ n, backoffAfter n ≤ backoffAfter (n + 1) := by
    intro n
    rw [hstep]
    exact Nat.le_min.mpr ⟨by omega, hbound n⟩
  have hsat : ∀ n, 6 ≤ n → backoffAfter n = maxRestartDelay := by
    intro n hn
    induction n with
    | zero => omega
    | succ k ih =>
      rcases Nat.lt_or_ge k 6 with hk | hk
      · have h5 : k = 5 := by omega
        subst h5
        decide
      · rw [hstep, ih hk, Nat.min_eq_right (by omega)]
  exact ⟨rfl, rfl, hstep, hmono, hbound, hsat, fun d => rfl⟩

/-- C7, witness: the saturation clause at the sixth failure and the reset
clause at the then-current 64-second delay, both from the theorem. -/
theorem workerBackoff_spec_witness :
    backoffAfter 6 = maxRestartDelay ∧
      monitorHealthStep true (backoffAfter 6) = oneSecond :=
  ⟨workerBackoff_spec.2.2.2.2.2.1 6 (by decide),
    workerBackoff_spec.2.2.2.2.2.2 (backoffAfter 6)⟩

/-! ## C8: partition filtering -/

/-- The filtering loop only ever keeps elements of its input, in input
order. -/
theorem filterPartitionsAux_sublist (cfg : Config) (ps : List Partition) :
    ∀ seen, List.Sublist (filterPartitionsAux cfg seen ps) ps := by
  induction ps with
  | nil => intro seen; simp [filterPartitionsAux]
  | cons p ps ih =>
    intro seen
    simp only [filterPartitionsAux]
    split_ifs with h1 h2 h3
    · exact (ih seen).cons p
    · exact (ih seen).cons p
    · exact (ih seen).cons p
    · cases hu : p.usage with
      | none => exact (ih seen).cons p
      | some u =>
        cases ht : u.total == 0 with
        | true =>
          simp only [ht, if_true]
          exact (ih seen).cons p
        | false =>
          simp only [ht, Bool.false_eq_true, if_false]
          exact List.Sublist.cons₂ p (ih (p.device :: seen))

/-- Every partition the loop keeps passes all per-partition checks. -/
theorem filterPartitionsAux_kept (cfg : Config) (ps : List Partition) :
    ∀ seen p, p ∈ filterPartitionsAux cfg seen ps → partitionKept cfg p = true := by
  induction ps with
  | nil => intro seen p hp; simp [filterPartitionsAux] at hp
  | cons q ps ih =>
    intro seen p hp
    simp only [filterPartitionsAux] at hp
    split_ifs at hp with h1 h2 h3
    · exact ih seen p hp
    · exact ih seen p hp
    · exact ih seen p hp
    · cases hu : q.usage with
      | none =>
        rw [hu] at hp
        exact ih seen p hp
      | some u =>
        rw [hu] at hp
        cases ht : u.total == 0 with
        | true =>
          simp only [ht, if_true] at hp
          exact ih seen p hp
        | false =>
          simp only [ht, Bool.false_eq_true, if_false] at hp
          rcases List.mem_cons.mp hp with hq | hq
          · subst hq
            simp only [Bool.not_eq_true] at h1 h2
            simp [partitionKept, h1, h2, hu, ht, bne]
          · exact ih (q.device :: seen) p hq

/-- Devices of the loop's output are pairwise distinct and disjoint from
the devices already seen. -/
theorem filterPartitionsAux_devices (cfg : Config) (ps : List Partition) :
    ∀ seen, ((filterPartitionsAux cfg seen ps).map (fun p => p.device)).Nodup ∧
      ∀ p, p ∈ filterPartitionsAux cfg seen ps → p.device ∉ seen := by
  induction ps with
  | nil => intro seen; simp [filterPartitionsAux]
  | cons q ps ih =>
    intro seen
    simp only [filterPartitionsAux]
    split_ifs with h1 h2 h3
    · exact ih seen
    · exact ih seen
    · exact ih seen
    · cases hu : q.usage with
      | none => exact ih seen
      | some u =>
        cases ht : u.total == 0 with
        | true =>
          simp only [ht, if_true]
          exact ih seen
        | false =>
          simp only [ht, Bool.false_eq_true, if_false]
          obtain ⟨ihn, ihd⟩ := ih (q.device :: seen)
          have hqseen : q.device ∉ seen := by
            intro hmem
            exact h3 (List.elem_eq_true_of_mem hmem)
          refine ⟨?_, ?_⟩
          · simp only [List.map_cons, List.nodup_cons]
            refine ⟨?_, ihn⟩
            intro hmem
            rcases List.mem_map.mp hmem with ⟨r, hr, hrd⟩
            exact (ihd r hr) (hrd ▸ List.mem_cons_self q.device seen)
          · intro p hp
            rcases List.mem_cons.mp hp with hq | hq
            · subst hq
              exact hqseen
            · intro hmem
              exact (ihd p hq) (List.mem_cons_of_mem _ hmem)

/-- On a list every element of which passes the checks, with pairwise
distinct devices none of which was seen yet, the loop is the identity. -/
theorem filterPartitionsAux_id (cfg : Config) (l : List Partition)
    (hkeep : ∀ p, p ∈ l → partitionKept cfg p = true)
    (hnodup : (l.map (fun p => p.device)).Nodup) :
    ∀ seen, (∀ p, p ∈ l → p.device ∉ seen) → filterPartitionsAux cfg seen l = l := by
  induction l with
  | nil => intro seen _; rfl
  | cons p ps ih =>
    intro seen hdisj
    have hk := hkeep p (List.mem_cons_self p ps)
    simp only [partitionKept, Bool.and_eq_true, Bool.not_eq_true'] at hk
    obtain ⟨⟨h1, h2⟩, h3⟩ := hk
    have hcont : seen.contains p.device = false := by
      rcases hc : seen.contains p.device with _ | _
      · rfl
      · exact absurd (List.mem_of_elem_eq_true hc)
          (hdisj p (List.mem_cons_self p ps))
    have hn := hnodup
    simp only [List.map_cons, List.nodup_cons] at hn
    cases hu : p.usage with
    | none =>
      rw [hu] at h3
      simp at h3
    | some u =>
      rw [hu] at h3
      have ht : (u.total == 0) = false := by
        cases hb : u.total == 0 with
        | false => rfl
        | true => simp [bne, hb] at h3
      simp only [filterPartitionsAux, h1, h2, hcont, Bool.false_eq_true, if_false, hu, ht]
      rw [ih (fun q hq => hkeep q (List.mem_cons_of_mem p hq)) hn.2 (p.device :: seen) ?_]
      intro q hq
      simp only [List.mem_cons]
      rintro (hqd | hqd)
      · exact hn.1 (hqd ▸ List.mem_map_of_mem (fun r => r.device) hq)
      · exact hdisj q (List.mem_cons_of_mem p hq) hqd

/-- C8: the `SendDiskInfo` partition filtering (mount-point exclusion,
filesystem-type exclusion, device dedup, zero-total skip) is idempotent —
filtering an already-filtered list returns it unchanged — and its output
is a sublist of the input (the dedup keeps the first occurrence of each
device and preserves their order) with pairwise-distinct devices. -/
theorem filterPartitions_idempotent (cfg : Config) (ps : List Partition) :
    filterPartitions cfg (filterPartitions cfg ps) = filterPartitions cfg ps ∧
      List.Sublist (filterPartitions cfg ps) ps ∧
      ((filterPartitions cfg ps).map (fun p => p.device)).Nodup := by
  refine ⟨?_, filterPartitionsAux_sublist cfg ps [], (filterPartitionsAux_devices cfg ps []).1⟩
  exact filterPartitionsAux_id cfg (filterPartitions cfg ps)
    (fun p hp => filterPartitionsAux_kept cfg ps [] p hp)
    (filterPartitionsAux_devices cfg ps []).1
    [] (fun p _ => List.not_mem_nil p.device)

end CloudSentinel
